import Mathlib

/-! Shallow embedding of the file opencore_legacy_patcher/support/metallib_handler.py.

The Python module resolves, for a host build/version pair, the matching
MetallibSupportPkg from a remote manifest, and manages its download and
installation.  Side effects (network fetch, filesystem probe, installer
subprocess) are modelled by explicit inputs (ResolveEnv, cache state) and
explicit outputs (ResolveTrace flags, the updated cache).
-/

namespace Metallib

/-- Parsed semantic version, embedding packaging.version.parse on release
strings of shape X.Y.Z (missing components read as zero; the ordering is
lexicographic on the padded release tuple, as in packaging.version). -/
structure Version where
  major : Nat
  minor : Nat
  patch : Nat
deriving DecidableEq, Repr

/-- Strict order on versions: lexicographic on (major, minor, patch),
embedding the comparison of packaging.version on three-component releases. -/
def Version.blt (a b : Version) : Bool :=
  if a.major ≠ b.major then decide (a.major < b.major)
  else if a.minor ≠ b.minor then decide (a.minor < b.minor)
  else decide (a.patch < b.patch)

/-- Non-strict order on versions, lexicographic on (major, minor, patch). -/
def Version.ble (a b : Version) : Bool :=
  if a.major ≠ b.major then decide (a.major < b.major)
  else if a.minor ≠ b.minor then decide (a.minor < b.minor)
  else decide (a.patch ≤ b.patch)

/-- Rendering of a parsed version back to the manifest string form. -/
def Version.render (v : Version) : String :=
  toString v.major ++ "." ++ toString v.minor ++ "." ++ toString v.patch

/-- One entry of the remote manifest: a JSON object with build, version and
url fields (the version field already parsed). -/
structure MetalEntry where
  build : String
  version : Version
  url : String
deriving DecidableEq, Repr

/-- The remote manifest: an ordered sequence of entries, order as delivered. -/
abbrev Manifest := List MetalEntry

/-- The slice of constants.Constants this module reads. -/
structure Constants where
  installer_environment : Bool
  recovery_environment : Bool
  metallib_download_path : String
deriving DecidableEq, Repr

/-- An immediate child of the install root, as seen by Path.iterdir. -/
structure DirEntry where
  name : String
  isDir : Bool
deriving DecidableEq, Repr

def METALLIB_INSTALL_PATH : String := "/Library/Application Support/Dortania/MetallibSupportPkg"

/-- Python truthiness of an optional string (None and the empty string are
falsy). -/
def optStrTruthy : Option String → Bool
  | none => false
  | some s => !(s == "")

/-- Python truthiness of the module-level METALLIB_ASSET_LIST (None and the
empty list are falsy). -/
def manifestTruthy : Option Manifest → Bool
  | none => false
  | some l => !l.isEmpty

/-- Helper for the Python membership check on strings: does pat occur as a
contiguous run inside the character list? -/
def containsAux (pat : List Char) : List Char → Bool
  | [] => pat.isEmpty
  | c :: rest => List.isPrefixOf pat (c :: rest) || containsAux pat rest

/-- Embedding of the Python expression pat in s on strings. -/
def strContains (s pat : String) : Bool := containsAux pat.toList s.toList

/-- Loop body of _local_metallib_installed: walk the Path.iterdir output,
skip non-directories, apply the match filter, return the path of the first
hit. -/
def probeLoop (mtch : Option String) (check_version : Bool) : List DirEntry → Option String
  | [] => none
  | e :: rest =>
    if !e.isDir then probeLoop mtch check_version rest
    else if check_version then
      if optStrTruthy mtch && !(strContains e.name (mtch.getD (""))) then
        probeLoop mtch check_version rest
      else some (METALLIB_INSTALL_PATH ++ "/" ++ e.name)
    else
      if optStrTruthy mtch && !(e.name.endsWith ("-" ++ mtch.getD (""))) then
        probeLoop mtch check_version rest
      else some (METALLIB_INSTALL_PATH ++ "/" ++ e.name)

/-- Embedding of _local_metallib_installed(match, check_version).  The
argument fs is the state of the install root: none when the path does not
exist, otherwise the list of its immediate children. -/
def localMetallibInstalled (ignore_installed : Bool) (fs : Option (List DirEntry))
    (mtch : Option String) (check_version : Bool) : Option String :=
  if ignore_installed then none
  else
    match fs with
    | none => none
    | some entries => probeLoop mtch check_version entries

/-- Result of one _get_remote_metallibs call: the returned value, the new
state of the module-level cache METALLIB_ASSET_LIST, and whether the network
was touched. -/
structure FetchOut where
  result : Option Manifest
  cache : Option Manifest
  networkAccessed : Bool
deriving DecidableEq, Repr

/-- Embedding of _get_remote_metallibs().  The argument cache is the current
METALLIB_ASSET_LIST; net is what the network would deliver on this call
(none stands for a transport failure or a non-200 status). -/
def getRemoteMetallibs (cache : Option Manifest) (net : Option Manifest) : FetchOut :=
  if manifestTruthy cache then ⟨cache, cache, false⟩
  else
    match net with
    | none => ⟨none, cache, true⟩
    | some l => ⟨some l, some l, true⟩

/-- First manifest entry whose build equals the host build (the exact-match
loop of _get_latest_metallib). -/
def findExact (manifest : Manifest) (build : String) : Option MetalEntry :=
  manifest.find? (fun e => e.build == build)

/-- Filter of the closest-match loop: the entry is kept unless its version
exceeds the host version or its major differs from the major of the host. -/
def closestPass (hostV : Version) (e : MetalEntry) : Bool :=
  !(Version.blt hostV e.version) && (e.version.major == hostV.major)

/-- First manifest entry passing the closest-match filter (the closest-match
loop of _get_latest_metallib). -/
def findClosest (manifest : Manifest) (hostV : Version) : Option MetalEntry :=
  manifest.find? (closestPass hostV)

/-- Modelled from the spec: os_data.os_conversion.os_to_kernel (the
datasets/os_data module is not part of the source fragment).  It maps a
macOS major version, given as str(parsed_version.major), to the Darwin
kernel generation; for majors written without a 10. prefix the generation
is major + 9. -/
def os_to_kernel (major : Nat) : Nat := major + 9

/-- Modelled from the spec: os_data.os_data.sequoia, the first OS generation
requiring MetallibSupportPkg (macOS 15 maps to Darwin 24). -/
def sequoia : Nat := 24

/-- The mutable fields of a MetalLibraryObject, initialised as in the
constructor before any resolution step runs. -/
structure MetalLibState where
  host_build : String
  host_version : Version
  passive : Bool
  ignore_installed : Bool
  metallib_already_installed : Bool := false
  metallib_installed_path : Option String := none
  metallib_url : String := ""
  metallib_url_build : String := ""
  metallib_url_version : String := ""
  metallib_url_is_exactly_match : Bool := false
  metallib_closest_match_url : String := ""
  metallib_closest_match_url_build : String := ""
  metallib_closest_match_url_version : String := ""
  success : Bool := false
  error_msg : String := ""
deriving DecidableEq, Repr

/-- The external world a resolution run observes: the install-root contents
and what the network would deliver if queried. -/
structure ResolveEnv where
  fs : Option (List DirEntry)
  net : Option Manifest
deriving DecidableEq, Repr

/-- Which side effects a resolution run performed. -/
structure ResolveTrace where
  networkAccessed : Bool := false
  probePerformed : Bool := false
  closestScanEntered : Bool := false
deriving DecidableEq, Repr

/-- Embedding of _get_latest_metallib().  Takes the object state, the
module-level cache and the environment; returns the updated state, the
updated cache and the side-effect trace. -/
def getLatestMetallib (s : MetalLibState) (cache : Option Manifest) (env : ResolveEnv) :
    MetalLibState × Option Manifest × ResolveTrace :=
  if os_to_kernel s.host_version.major < sequoia then
    ({ s with success := true }, cache, {})
  else
    let installed := localMetallibInstalled s.ignore_installed env.fs none false
    let s1 := { s with metallib_installed_path := installed }
    if optStrTruthy installed then
      ({ s1 with metallib_already_installed := true, success := true }, cache,
        { probePerformed := true })
    else
      let fo := getRemoteMetallibs cache env.net
      match fo.result with
      | none =>
        ({ s1 with error_msg := "Failed to fetch Metallib manifest" }, fo.cache,
          { probePerformed := true, networkAccessed := fo.networkAccessed })
      | some manifest =>
        let s2 :=
          match findExact manifest s1.host_build with
          | some e =>
            { s1 with metallib_url := e.url, metallib_url_build := e.build,
                      metallib_url_version := Version.render e.version,
                      metallib_url_is_exactly_match := true }
          | none => s1
        if !(s2.metallib_url == "") then
          ({ s2 with success := true }, fo.cache,
            { probePerformed := true, networkAccessed := fo.networkAccessed })
        else
          let s3 :=
            match findClosest manifest s2.host_version with
            | some e =>
              { s2 with metallib_closest_match_url := e.url,
                        metallib_closest_match_url_build := e.build,
                        metallib_closest_match_url_version := Version.render e.version }
            | none => s2
          if s3.metallib_closest_match_url == "" then
            ({ s3 with error_msg := "No suitable metallib found for " ++ s3.host_build },
              fo.cache,
              { probePerformed := true, networkAccessed := fo.networkAccessed,
                closestScanEntered := true })
          else
            ({ s3 with metallib_url := s3.metallib_closest_match_url,
                       metallib_url_build := s3.metallib_closest_match_url_build,
                       metallib_url_version := s3.metallib_closest_match_url_version,
                       success := true },
              fo.cache,
              { probePerformed := true, networkAccessed := fo.networkAccessed,
                closestScanEntered := true })

/-- Embedding of the MetalLibraryObject constructor: build the fresh state
and, unless the installer/recovery guard fires, run _get_latest_metallib. -/
def initMetalLib (c : Constants) (host_build : String) (host_version : Version)
    (ignore_installed passive : Bool) (cache : Option Manifest) (env : ResolveEnv) :
    MetalLibState × Option Manifest × ResolveTrace :=
  let s : MetalLibState :=
    { host_build := host_build, host_version := host_version,
      passive := passive, ignore_installed := ignore_installed }
  if c.installer_environment || c.recovery_environment then
    ({ s with success := true }, cache, {})
  else
    getLatestMetallib s cache env

/-- Embedding of retrieve_download(override_path): the download descriptor,
as the pair (source url, destination path), or none when nothing is to be
fetched. -/
def retrieve_download (s : MetalLibState) (c : Constants) (override_path : String) :
    Option (String × String) :=
  if s.metallib_already_installed || s.metallib_url == "" then none
  else
    some (s.metallib_url,
      if override_path == "" then c.metallib_download_path else override_path)

/-- The pkg argument handed to /usr/sbin/installer: the metallib argument
when truthy, else the default download path. -/
def installPkgArg (metallib : Option String) (c : Constants) : String :=
  match metallib with
  | some m => if m == "" then c.metallib_download_path else m
  | none => c.metallib_download_path

/-- Embedding of install_metallib(metallib).  installerExit is the exit code
the installer subprocess would return if invoked.  Result: the returned
boolean, paired with some pkgArg when the installer was invoked on pkgArg
and none when it was never invoked. -/
def install_metallib (s : MetalLibState) (c : Constants) (metallib : Option String)
    (installerExit : Int) : Bool × Option String :=
  if s.passive then (true, none)
  else if !s.success || s.metallib_already_installed then (true, none)
  else ((installerExit == 0), some (installPkgArg metallib c))

/-- A constants record outside installer and recovery environments. -/
def tstConstants : Constants :=
  { installer_environment := false, recovery_environment := false,
    metallib_download_path := "/tmp/metallib.pkg" }

/-- A one-entry manifest for a Sequoia-class build. -/
def tstManifest : Manifest := [⟨"24B83", ⟨15, 1, 0⟩, "https://example/24B83.pkg"⟩]

/-- Manifest whose exact-match entry for build 26A1 carries an empty url,
while a later lower-versioned entry has a usable url. -/
def cexManifestEmptyUrl : Manifest :=
  [⟨"26A1", ⟨27, 0, 0⟩, ""⟩, ⟨"26B2", ⟨26, 0, 0⟩, "https://example/26B2.pkg"⟩]

/-- Manifest with a single entry one major ahead of the host, matching no
major-26 host and no build 26A1. -/
def cexManifestNoMatch : Manifest := [⟨"26Z9", ⟨27, 0, 0⟩, "https://example/26Z9.pkg"⟩]

/-- Manifest for the closest-match witness: a newer same-major entry first,
then the compatible one, then an older-major one. -/
def wManifestClosest : Manifest :=
  [⟨"26C5", ⟨26, 3, 0⟩, "https://example/26C5.pkg"⟩,
   ⟨"26B4", ⟨26, 1, 0⟩, "https://example/26B4.pkg"⟩,
   ⟨"25X1", ⟨25, 9, 0⟩, "https://example/25X1.pkg"⟩]

/-! ### Helper lemmas -/

theorem Version.ble_eq_not_blt (a b : Version) : Version.ble a b = !Version.blt b a := by
  rcases a with ⟨a1, a2, a3⟩
  rcases b with ⟨b1, b2, b3⟩
  simp only [Version.ble, Version.blt]
  split_ifs <;> simp only [← decide_not] <;>
    exact decide_eq_decide.mpr (by constructor <;> (intro h; omega))

/-- List.find? returns the first element satisfying the check: the list
splits around the result, everything before it failing the check. -/
theorem find?_eq_some_split {α : Type} (p : α → Bool) (l : List α) (a : α)
    (h : l.find? p = some a) :
    ∃ pre post, l = pre ++ a :: post ∧ ∀ x ∈ pre, p x = false := by
  induction l with
  | nil => simp [List.find?] at h
  | cons b t ih =>
    rw [List.find?] at h
    rcases hb : p b with _ | _
    · rw [hb] at h
      obtain ⟨pre, post, hsplit, hpre⟩ := ih h
      refine ⟨b :: pre, post, by rw [hsplit]; rfl, ?_⟩
      intro x hx
      rcases List.mem_cons.mp hx with hx | hx
      · rw [hx]; exact hb
      · exact hpre x hx
    · rw [hb] at h
      injection h with h
      exact ⟨[], t, by simp [h], by intro x hx; cases hx⟩

/-- A path returned by the probe loop is never the empty string. -/
theorem probeLoop_ne_empty (mtch : Option String) (cv : Bool) (entries : List DirEntry)
    (p : String) (h : probeLoop mtch cv entries = some p) : (p == "") = false := by
  induction entries with
  | nil => simp [probeLoop] at h
  | cons e rest ih =>
    rw [probeLoop] at h
    split at h
    · exact ih h
    · split at h <;> split at h <;> first
        | exact ih h
        | (injection h with h
           rw [← h]
           have hlen : (METALLIB_INSTALL_PATH ++ "/" ++ e.name).length =
               METALLIB_INSTALL_PATH.length + 1 + e.name.length := by
             simp [String.length_append]
             decide
           rw [beq_eq_false_iff_ne]
           intro hc
           have := congrArg String.length hc
           rw [hlen] at this
           simp [METALLIB_INSTALL_PATH] at this)

/-- A path returned by _local_metallib_installed is never the empty string. -/
theorem localMetallibInstalled_ne_empty (ig : Bool) (fs : Option (List DirEntry))
    (mtch : Option String) (cv : Bool) (p : String)
    (h : localMetallibInstalled ig fs mtch cv = some p) : (p == "") = false := by
  unfold localMetallibInstalled at h
  split at h
  · cases h
  · split at h
    · cases h
    · exact probeLoop_ne_empty _ _ _ _ h

/-- With no match argument, the probe loop succeeds as soon as the listing
holds at least one directory. -/
theorem probeLoop_none_finds_dir (cv : Bool) (entries : List DirEntry)
    (d : DirEntry) (hd : d ∈ entries) (hdir : d.isDir = true) :
    ∃ p, probeLoop none cv entries = some p := by
  induction entries with
  | nil => cases hd
  | cons e rest ih =>
    rw [probeLoop]
    rcases he : e.isDir with _ | _
    · rcases List.mem_cons.mp hd with hd' | hd'
      · rw [← hd'] at he
        rw [hdir] at he
        cases he
      · simpa [he] using ih hd'
    · simp [he, optStrTruthy, probeLoop]

/-- Core of the already-installed short circuit, shared by the
already-installed and probe-shape claims: a successful probe makes the run
report already-installed, touch no network, and yield no download. -/
theorem probe_short_circuit_core (c : Constants) (b : String) (v : Version)
    (ig pa : Bool) (cache : Option Manifest) (env : ResolveEnv) (p : String)
    (h1 : c.installer_environment = false) (h2 : c.recovery_environment = false)
    (hg : sequoia ≤ os_to_kernel v.major)
    (hp : localMetallibInstalled ig env.fs none false = some p) :
    (initMetalLib c b v ig pa cache env).1.metallib_already_installed = true ∧
    (initMetalLib c b v ig pa cache env).1.success = true ∧
    (initMetalLib c b v ig pa cache env).1.metallib_installed_path = some p ∧
    (initMetalLib c b v ig pa cache env).2.2.networkAccessed = false ∧
    ∀ op : String, retrieve_download (initMetalLib c b v ig pa cache env).1 c op = none := by
  have hne := localMetallibInstalled_ne_empty ig env.fs none false p hp
  unfold initMetalLib getLatestMetallib
  simp only [h1, h2, Bool.or_self, Bool.false_eq_true, if_false]
  rw [if_neg (by omega)]
  simp only [hp, optStrTruthy, hne, Bool.not_false, if_true]
  refine ⟨?_, ?_, ?_, ?_, ?_⟩ <;>
    first
      | trivial
      | (intro op; simp [retrieve_download])

/-! ### Claims -/

/-- C1: when no build of the manifest matches exactly, the closest match
recorded is precisely the first manifest entry whose version does not exceed
the version of the host and whose major equals the major of the host —
every earlier entry fails a filter, the match is not flagged exact, and
(when its url is non-empty) the url of that entry is the one resolved. -/
theorem closest_match_first_compatible (c : Constants) (b : String) (v : Version)
    (ig pa : Bool) (cache : Option Manifest) (env : ResolveEnv)
    (manifest : Manifest) (e : MetalEntry)
    (h1 : c.installer_environment = false) (h2 : c.recovery_environment = false)
    (hg : sequoia ≤ os_to_kernel v.major)
    (hp : localMetallibInstalled ig env.fs none false = none)
    (hf : (getRemoteMetallibs cache env.net).result = some manifest)
    (he : findExact manifest b = none)
    (hc : findClosest manifest v = some e) :
    (initMetalLib c b v ig pa cache env).1.metallib_closest_match_url = e.url ∧
    (initMetalLib c b v ig pa cache env).1.metallib_closest_match_url_build = e.build ∧
    (initMetalLib c b v ig pa cache env).1.metallib_url_is_exactly_match = false ∧
    Version.ble e.version v = true ∧
    e.version.major = v.major ∧
    (∃ pre post, manifest = pre ++ e :: post ∧ ∀ x ∈ pre, closestPass v x = false) ∧
    ((e.url == "") = false →
      (initMetalLib c b v ig pa cache env).1.metallib_url = e.url ∧
      (initMetalLib c b v ig pa cache env).1.success = true) := by
  have hpass : closestPass v e = true := List.find?_some hc
  have hsplit := find?_eq_some_split (closestPass v) manifest e hc
  rw [closestPass, Bool.and_eq_true, Bool.not_eq_true'] at hpass
  obtain ⟨hblt, hmaj⟩ := hpass
  have hble : Version.ble e.version v = true := by
    rw [Version.ble_eq_not_blt, hblt]
    rfl
  unfold initMetalLib getLatestMetallib
  simp only [h1, h2, Bool.or_self, Bool.false_eq_true, if_false]
  rw [if_neg (by omega)]
  simp only [hp, optStrTruthy, Bool.false_eq_true, if_false, hf, he, hc]
  rcases hu : (e.url == "") with _ | _ <;>
    simp only [hu, Bool.not_false, Bool.not_true, if_true, if_false] <;>
    exact ⟨by simp, by simp, by simp, hble, eq_of_beq hmaj, hsplit,
      by intro hu2; first | exact Bool.noConfusion hu2 | refine ⟨by simp, by simp⟩⟩

theorem closest_match_first_compatible_w :
    findExact wManifestClosest ("26X9") = none ∧
    findClosest wManifestClosest ⟨26, 2, 0⟩ =
      some ⟨"26B4", ⟨26, 1, 0⟩, "https://example/26B4.pkg"⟩ ∧
    (initMetalLib tstConstants ("26X9") ⟨26, 2, 0⟩ false false none
      ⟨some [], some wManifestClosest⟩).1.metallib_closest_match_url_build = "26B4" ∧
    (initMetalLib tstConstants ("26X9") ⟨26, 2, 0⟩ false false none
      ⟨some [], some wManifestClosest⟩).1.metallib_url_is_exactly_match = false ∧
    Version.ble ⟨26, 1, 0⟩ ⟨26, 2, 0⟩ = true ∧
    (initMetalLib tstConstants ("26X9") ⟨26, 2, 0⟩ false false none
      ⟨some [], some wManifestClosest⟩).1.metallib_url = "https://example/26B4.pkg" ∧
    (initMetalLib tstConstants ("26X9") ⟨26, 2, 0⟩ false false none
      ⟨some [], some wManifestClosest⟩).1.success = true := by
  have h := closest_match_first_compatible tstConstants ("26X9") ⟨26, 2, 0⟩ false false
    none ⟨some [], some wManifestClosest⟩ wManifestClosest
    ⟨"26B4", ⟨26, 1, 0⟩, "https://example/26B4.pkg"⟩
    rfl rfl (by decide) rfl rfl (by decide) (by decide)
  exact ⟨by decide, by decide, h.2.1, h.2.2.1, h.2.2.2.1,
    (h.2.2.2.2.2.2 (by decide)).1, (h.2.2.2.2.2.2 (by decide)).2⟩

/-- C2 counterexample: the manifest holds an entry whose build equals the
host build, yet because the url of that entry is the empty string the code
falls through into the closest-match scan and ends up selecting the url and
build of a different entry — while the exact flag, never reset, stays
true. -/
theorem exact_match_priority_cex :
    cexManifestEmptyUrl.any (fun e => e.build == "26A1") = true ∧
    (initMetalLib tstConstants ("26A1") ⟨26, 5, 0⟩ false false none
      ⟨some [], some cexManifestEmptyUrl⟩).2.2.closestScanEntered = true ∧
    (initMetalLib tstConstants ("26A1") ⟨26, 5, 0⟩ false false none
      ⟨some [], some cexManifestEmptyUrl⟩).1.metallib_url_build = "26B2" ∧
    (initMetalLib tstConstants ("26A1") ⟨26, 5, 0⟩ false false none
      ⟨some [], some cexManifestEmptyUrl⟩).1.metallib_url_is_exactly_match = true := by
  refine ⟨by decide, by decide, by decide, by decide⟩

/-- C2 (amended): for every manifest containing an entry whose build equals
the build of the host, the resolver marks the match exact — unconditionally,
the flag is set by the exact loop and never reset; provided the url of the
first such entry is non-empty it selects that entry, even when other entries
carry higher versions, and the closest-match scan is never entered. -/
theorem exact_build_match_selected (c : Constants) (b : String) (v : Version)
    (ig pa : Bool) (cache : Option Manifest) (env : ResolveEnv)
    (manifest : Manifest) (e : MetalEntry)
    (h1 : c.installer_environment = false) (h2 : c.recovery_environment = false)
    (hg : sequoia ≤ os_to_kernel v.major)
    (hp : localMetallibInstalled ig env.fs none false = none)
    (hf : (getRemoteMetallibs cache env.net).result = some manifest)
    (he : findExact manifest b = some e) :
    (initMetalLib c b v ig pa cache env).1.metallib_url_is_exactly_match = true ∧
    ((e.url == "") = false →
      (initMetalLib c b v ig pa cache env).1.metallib_url = e.url ∧
      (initMetalLib c b v ig pa cache env).1.metallib_url_build = e.build ∧
      (initMetalLib c b v ig pa cache env).1.success = true ∧
      (initMetalLib c b v ig pa cache env).2.2.closestScanEntered = false) := by
  unfold initMetalLib getLatestMetallib
  simp only [h1, h2, Bool.or_self, Bool.false_eq_true, if_false]
  rw [if_neg (by omega)]
  simp only [hp, optStrTruthy, Bool.false_eq_true, if_false, hf, he]
  rcases hu : (e.url == "") with _ | _
  · simp only [hu, Bool.not_false, if_true]
    exact ⟨by simp, by intro hu2; refine ⟨by simp, by simp, by simp, by simp⟩⟩
  · simp only [hu, Bool.not_true, Bool.false_eq_true, if_false]
    rcases hcl : findClosest manifest v with _ | e2
    · simp only [hcl]
      exact ⟨by simp, by intro hx; exact Bool.noConfusion hx⟩
    · simp only [hcl]
      rcases hu2 : (e2.url == "") with _ | _ <;>
        exact ⟨by simp [hu2], by intro hx; exact Bool.noConfusion hx⟩

theorem exact_build_match_selected_w :
    findExact tstManifest ("24B83") = some ⟨"24B83", ⟨15, 1, 0⟩, "https://example/24B83.pkg"⟩ ∧
    (initMetalLib tstConstants ("24B83") ⟨15, 1, 0⟩ false false none
      ⟨some [], some tstManifest⟩).1.metallib_url_is_exactly_match = true ∧
    (initMetalLib tstConstants ("24B83") ⟨15, 1, 0⟩ false false none
      ⟨some [], some tstManifest⟩).1.metallib_url = "https://example/24B83.pkg" ∧
    (initMetalLib tstConstants ("24B83") ⟨15, 1, 0⟩ false false none
      ⟨some [], some tstManifest⟩).1.metallib_url_build = "24B83" ∧
    (initMetalLib tstConstants ("24B83") ⟨15, 1, 0⟩ false false none
      ⟨some [], some tstManifest⟩).1.success = true ∧
    (initMetalLib tstConstants ("24B83") ⟨15, 1, 0⟩ false false none
      ⟨some [], some tstManifest⟩).2.2.closestScanEntered = false := by
  have h := exact_build_match_selected tstConstants ("24B83") ⟨15, 1, 0⟩ false false none
    ⟨some [], some tstManifest⟩ tstManifest ⟨"24B83", ⟨15, 1, 0⟩, "https://example/24B83.pkg"⟩
    rfl rfl (by decide) rfl rfl (by decide)
  exact ⟨by decide, h.1, (h.2 (by decide)).1, (h.2 (by decide)).2.1,
    (h.2 (by decide)).2.2.1, (h.2 (by decide)).2.2.2⟩

/-- C3: for every host constructed with installer_environment or
recovery_environment true, construction reports success and performs neither
the network manifest fetch nor the filesystem installation probe. -/
theorem guard_skips_resolution (c : Constants) (b : String) (v : Version)
    (ig pa : Bool) (cache : Option Manifest) (env : ResolveEnv)
    (h : c.installer_environment = true ∨ c.recovery_environment = true) :
    (initMetalLib c b v ig pa cache env).1.success = true ∧
    (initMetalLib c b v ig pa cache env).2.2.networkAccessed = false ∧
    (initMetalLib c b v ig pa cache env).2.2.probePerformed = false := by
  unfold initMetalLib
  rcases h with h | h <;> simp [h]

theorem guard_skips_resolution_w :
    (initMetalLib ⟨true, false, "/dl"⟩ ("24B83") ⟨15, 1, 0⟩ false false none
        ⟨none, none⟩).1.success = true ∧
    (initMetalLib ⟨true, false, "/dl"⟩ ("24B83") ⟨15, 1, 0⟩ false false none
        ⟨none, none⟩).2.2.networkAccessed = false ∧
    (initMetalLib ⟨true, false, "/dl"⟩ ("24B83") ⟨15, 1, 0⟩ false false none
        ⟨none, none⟩).2.2.probePerformed = false :=
  guard_skips_resolution ⟨true, false, "/dl"⟩ ("24B83") ⟨15, 1, 0⟩ false false none
    ⟨none, none⟩ (Or.inl rfl)

/-- C4: for every host whose version major maps to an OS generation below
the Sequoia threshold, resolution reports success and no network call is
made. -/
theorem os_gate_not_required (c : Constants) (b : String) (v : Version)
    (ig pa : Bool) (cache : Option Manifest) (env : ResolveEnv)
    (h : os_to_kernel v.major < sequoia) :
    (initMetalLib c b v ig pa cache env).1.success = true ∧
    (initMetalLib c b v ig pa cache env).2.2.networkAccessed = false := by
  unfold initMetalLib getLatestMetallib
  by_cases hg : (c.installer_environment || c.recovery_environment) = true
  · simp [hg]
  · simp only [Bool.not_eq_true] at hg
    simp [hg, h]

theorem os_gate_not_required_w :
    os_to_kernel (Version.major ⟨14, 7, 0⟩) < sequoia ∧
    ((initMetalLib tstConstants ("23H124") ⟨14, 7, 0⟩ false false none
        ⟨none, some tstManifest⟩).1.success = true ∧
      (initMetalLib tstConstants ("23H124") ⟨14, 7, 0⟩ false false none
        ⟨none, some tstManifest⟩).2.2.networkAccessed = false) :=
  ⟨by decide,
    os_gate_not_required tstConstants ("23H124") ⟨14, 7, 0⟩ false false none
      ⟨none, some tstManifest⟩ (by decide)⟩

/-- C5 counterexample: the module-level cache is populated with the empty
manifest (a JSON empty-array body is a valid 200 response), yet the next
fetch call touches the network again — and can even return a different
manifest — so the network is not contacted at most once per process. -/
theorem fetch_cache_cex :
    (getRemoteMetallibs (some ([] : Manifest)) (some tstManifest)).networkAccessed = true ∧
    (getRemoteMetallibs (some ([] : Manifest)) (some tstManifest)).result = some tstManifest ∧
    ¬(getRemoteMetallibs (some ([] : Manifest)) (some tstManifest)).result
        = some ([] : Manifest) := by
  refine ⟨rfl, rfl, ?_⟩
  intro h
  simp [getRemoteMetallibs, manifestTruthy, tstManifest] at h

/-- C5 (amended): once the cache holds a non-empty manifest, every later
fetch call returns the cached manifest with no network access; a cache
populated with an empty manifest is treated as unpopulated and the next call
fetches again. -/
theorem fetch_cached_no_network (l : Manifest) (net : Option Manifest)
    (h : l ≠ []) :
    getRemoteMetallibs (some l) net = ⟨some l, some l, false⟩ := by
  unfold getRemoteMetallibs manifestTruthy
  simp [h]

theorem fetch_cached_no_network_w :
    tstManifest ≠ [] ∧
    getRemoteMetallibs (some tstManifest) none = ⟨some tstManifest, some tstManifest, false⟩ :=
  ⟨by decide, fetch_cached_no_network tstManifest none (by decide)⟩

/-- C6 counterexample: when neither scan yields a candidate the run does end
unsuccessfully and the message names the host build, but the message text is
No suitable metallib found for the build, not the claimed wording no
suitable package found for build. -/
theorem no_suitable_message_cex :
    (initMetalLib tstConstants ("26A1") ⟨26, 0, 0⟩ false false none
      ⟨some [], some cexManifestNoMatch⟩).1.success = false ∧
    (initMetalLib tstConstants ("26A1") ⟨26, 0, 0⟩ false false none
      ⟨some [], some cexManifestNoMatch⟩).1.error_msg =
        "No suitable metallib found for 26A1" ∧
    ¬((initMetalLib tstConstants ("26A1") ⟨26, 0, 0⟩ false false none
      ⟨some [], some cexManifestNoMatch⟩).1.error_msg =
        "no suitable package found for build 26A1") := by
  refine ⟨by decide, by decide, by decide⟩

/-- C6 (amended): for every fetched manifest in which no build equals the
build of the host and no entry passes both closest-match filters, resolution
ends unsuccessfully with the error message No suitable metallib found for
the build, naming the build of the host. -/
theorem no_suitable_package_error (c : Constants) (b : String) (v : Version)
    (ig pa : Bool) (cache : Option Manifest) (env : ResolveEnv)
    (manifest : Manifest)
    (h1 : c.installer_environment = false) (h2 : c.recovery_environment = false)
    (hg : sequoia ≤ os_to_kernel v.major)
    (hp : localMetallibInstalled ig env.fs none false = none)
    (hf : (getRemoteMetallibs cache env.net).result = some manifest)
    (he : findExact manifest b = none)
    (hc : findClosest manifest v = none) :
    (initMetalLib c b v ig pa cache env).1.success = false ∧
    (initMetalLib c b v ig pa cache env).1.error_msg =
      "No suitable metallib found for " ++ b := by
  unfold initMetalLib getLatestMetallib
  simp only [h1, h2, Bool.or_self, Bool.false_eq_true, if_false]
  rw [if_neg (by omega)]
  simp only [hp, optStrTruthy, Bool.false_eq_true, if_false, hf, he, hc]
  refine ⟨?_, ?_⟩ <;> simp

theorem no_suitable_package_error_w :
    findExact cexManifestNoMatch ("26A1") = none ∧
    findClosest cexManifestNoMatch ⟨26, 0, 0⟩ = none ∧
    (initMetalLib tstConstants ("26A1") ⟨26, 0, 0⟩ false false none
      ⟨some [], some cexManifestNoMatch⟩).1.success = false ∧
    (initMetalLib tstConstants ("26A1") ⟨26, 0, 0⟩ false false none
      ⟨some [], some cexManifestNoMatch⟩).1.error_msg =
        "No suitable metallib found for " ++ "26A1" := by
  have h := no_suitable_package_error tstConstants ("26A1") ⟨26, 0, 0⟩ false false none
    ⟨some [], some cexManifestNoMatch⟩ cexManifestNoMatch
    rfl rfl (by decide) rfl rfl (by decide) (by decide)
  exact ⟨by decide, by decide, h.1, h.2⟩

/-- C7: when the local probe finds an installed artifact, resolution reports
already-installed with success, no network access happens, and the download
descriptor is none. -/
theorem already_installed_short_circuit (c : Constants) (b : String) (v : Version)
    (ig pa : Bool) (cache : Option Manifest) (env : ResolveEnv) (p : String)
    (h1 : c.installer_environment = false) (h2 : c.recovery_environment = false)
    (hg : sequoia ≤ os_to_kernel v.major)
    (hp : localMetallibInstalled ig env.fs none false = some p) :
    (initMetalLib c b v ig pa cache env).1.metallib_already_installed = true ∧
    (initMetalLib c b v ig pa cache env).1.success = true ∧
    (initMetalLib c b v ig pa cache env).1.metallib_installed_path = some p ∧
    (initMetalLib c b v ig pa cache env).2.2.networkAccessed = false ∧
    ∀ op : String, retrieve_download (initMetalLib c b v ig pa cache env).1 c op = none :=
  probe_short_circuit_core c b v ig pa cache env p h1 h2 hg hp

theorem already_installed_short_circuit_w :
    localMetallibInstalled false (some [⟨"KDK_15.1_24B83", true⟩]) none false =
      some (METALLIB_INSTALL_PATH ++ "/" ++ "KDK_15.1_24B83") ∧
    (initMetalLib tstConstants ("24B83") ⟨15, 1, 0⟩ false false none
      ⟨some [⟨"KDK_15.1_24B83", true⟩], some tstManifest⟩).1.metallib_already_installed
      = true ∧
    (initMetalLib tstConstants ("24B83") ⟨15, 1, 0⟩ false false none
      ⟨some [⟨"KDK_15.1_24B83", true⟩], some tstManifest⟩).1.success = true ∧
    (initMetalLib tstConstants ("24B83") ⟨15, 1, 0⟩ false false none
      ⟨some [⟨"KDK_15.1_24B83", true⟩], some tstManifest⟩).2.2.networkAccessed = false ∧
    retrieve_download
      (initMetalLib tstConstants ("24B83") ⟨15, 1, 0⟩ false false none
        ⟨some [⟨"KDK_15.1_24B83", true⟩], some tstManifest⟩).1 tstConstants ("") = none := by
  have h := already_installed_short_circuit tstConstants ("24B83") ⟨15, 1, 0⟩ false false
    none ⟨some [⟨"KDK_15.1_24B83", true⟩], some tstManifest⟩
    (METALLIB_INSTALL_PATH ++ "/" ++ "KDK_15.1_24B83") rfl rfl (by decide) rfl
  exact ⟨rfl, h.1, h.2.1, h.2.2.2.1, h.2.2.2.2 ("")⟩

/-- C8: install_metallib in passive mode, or without a successful
resolution, or when the artifact is already installed, returns true and
never invokes the installer; being pure, repeated calls behave the same. -/
theorem install_noop (s : MetalLibState) (c : Constants) (m : Option String)
    (ex : Int)
    (h : s.passive = true ∨ s.success = false ∨ s.metallib_already_installed = true) :
    install_metallib s c m ex = (true, none) := by
  unfold install_metallib
  rcases hp : s.passive with _ | _
  · rcases h with h | h | h
    · rw [hp] at h
      cases h
    · simp [h]
    · simp [h]
  · simp

theorem install_noop_w :
    ({ host_build := "24B83", host_version := ⟨15, 1, 0⟩, passive := false,
       ignore_installed := false, metallib_already_installed := true,
       success := true : MetalLibState }.metallib_already_installed = true) ∧
    install_metallib
      { host_build := "24B83", host_version := ⟨15, 1, 0⟩, passive := false,
        ignore_installed := false, metallib_already_installed := true,
        success := true } tstConstants none 0 = (true, none) :=
  ⟨rfl,
    install_noop
      { host_build := "24B83", host_version := ⟨15, 1, 0⟩, passive := false,
        ignore_installed := false, metallib_already_installed := true,
        success := true } tstConstants none 0 (Or.inr (Or.inr rfl))⟩

/-- C9: the resolver calls the probe with no match argument, so any host not
constructed with ignore_installed that reaches the probe is reported
already-installed as soon as the install root holds any immediate
subdirectory, whatever its name. -/
theorem probe_accepts_any_directory (c : Constants) (b : String) (v : Version)
    (pa : Bool) (cache : Option Manifest) (env : ResolveEnv)
    (entries : List DirEntry) (d : DirEntry)
    (h1 : c.installer_environment = false) (h2 : c.recovery_environment = false)
    (hg : sequoia ≤ os_to_kernel v.major)
    (hfs : env.fs = some entries) (hd : d ∈ entries) (hdir : d.isDir = true) :
    (initMetalLib c b v false pa cache env).1.metallib_already_installed = true ∧
    (initMetalLib c b v false pa cache env).1.success = true := by
  obtain ⟨p, hp⟩ := probeLoop_none_finds_dir false entries d hd hdir
  have hloc : localMetallibInstalled false env.fs none false = some p := by
    rw [hfs]
    simpa [localMetallibInstalled] using hp
  have h := probe_short_circuit_core c b v false pa cache env p h1 h2 hg hloc
  exact ⟨h.1, h.2.1⟩

theorem probe_accepts_any_directory_w :
    (⟨"not-a-metallib-dir", true⟩ : DirEntry) ∈ [⟨"zzz.txt", false⟩,
        (⟨"not-a-metallib-dir", true⟩ : DirEntry)] ∧
    (initMetalLib tstConstants ("24B83") ⟨15, 1, 0⟩ false false none
      ⟨some [⟨"zzz.txt", false⟩, ⟨"not-a-metallib-dir", true⟩],
        some tstManifest⟩).1.metallib_already_installed = true ∧
    (initMetalLib tstConstants ("24B83") ⟨15, 1, 0⟩ false false none
      ⟨some [⟨"zzz.txt", false⟩, ⟨"not-a-metallib-dir", true⟩],
        some tstManifest⟩).1.success = true :=
  ⟨by decide,
    probe_accepts_any_directory tstConstants ("24B83") ⟨15, 1, 0⟩ false none
      ⟨some [⟨"zzz.txt", false⟩, ⟨"not-a-metallib-dir", true⟩], some tstManifest⟩
      [⟨"zzz.txt", false⟩, ⟨"not-a-metallib-dir", true⟩] ⟨"not-a-metallib-dir", true⟩
      rfl rfl (by decide) rfl (by decide) rfl⟩

/-- C10: an object whose construction ended via the installer/recovery guard
or via the not-required OS gate has success true, no url and no
already-installed marker, so a non-passive install call does not return
early: it invokes the installer on the given-or-default package path. -/
theorem trivial_success_still_installs (c : Constants) (b : String) (v : Version)
    (ig : Bool) (cache : Option Manifest) (env : ResolveEnv) (m : Option String)
    (ex : Int)
    (h : c.installer_environment = true ∨ c.recovery_environment = true ∨
      os_to_kernel v.major < sequoia) :
    install_metallib (initMetalLib c b v ig false cache env).1 c m ex =
      ((ex == 0), some (installPkgArg m c)) := by
  unfold initMetalLib getLatestMetallib install_metallib
  rcases h with h | h | h
  · simp [h]
  · simp [h]
  · by_cases hg : (c.installer_environment || c.recovery_environment) = true
    · simp [hg]
    · simp only [Bool.not_eq_true] at hg
      simp [hg, h]

theorem trivial_success_still_installs_w :
    install_metallib
      (initMetalLib tstConstants ("23H124") ⟨14, 7, 0⟩ false false none
        ⟨none, none⟩).1 tstConstants none 0 = ((0 == 0), some ("/tmp/metallib.pkg")) :=
  trivial_success_still_installs tstConstants ("23H124") ⟨14, 7, 0⟩ false none
    ⟨none, none⟩ none 0 (Or.inr (Or.inr (by decide)))

end Metallib
